import Mathlib

/-!
Shallow embedding of the DXR raytracing-starter renderer
(RayTracing.cpp / RayTracing.h / Graphics.cpp / Graphics.h), together with
theorems settling the spec claims about it.

Machine integers (UINT, UINT64, SIZE_T) are modelled as Nat: every quantity
involved (byte sizes, offsets, descriptor indices, GPU virtual addresses) is
non-negative and far below 2^64 in all reachable states, so no wrap-around
is observable.  HRESULT is modelled as Int, with the FAILED macro meaning
"strictly negative".  COM resource pointers are modelled as Option values,
none standing for a null pointer.
-/

namespace DXRStarter

/-! ### Constants from d3d12.h and Graphics.h -/

/-- d3d12.h: size of a shader identifier in a shader-table record (32 bytes). -/
def D3D12_SHADER_IDENTIFIER_SIZE_IN_BYTES : Nat := 32

/-- d3d12.h: required alignment of each shader-table record (32 bytes). -/
def D3D12_RAYTRACING_SHADER_RECORD_BYTE_ALIGNMENT : Nat := 32

/-- d3d12.h: required alignment of a whole shader table (64 bytes). -/
def D3D12_RAYTRACING_SHADER_TABLE_BYTE_ALIGNMENT : Nat := 64

/-- d3d12.h: required alignment of acceleration-structure buffers (256 bytes). -/
def D3D12_RAYTRACING_ACCELERATION_STRUCTURE_BYTE_ALIGNMENT : Nat := 256

/-- sizeof(D3D12_GPU_DESCRIPTOR_HANDLE): a single UINT64 ptr member, 8 bytes. -/
def sizeof_D3D12_GPU_DESCRIPTOR_HANDLE : Nat := 8

/-- sizeof(D3D12_RAYTRACING_INSTANCE_DESC): 48 transform bytes, two packed
    UINT bitfields and a UINT64 address, 64 bytes total. -/
def sizeof_D3D12_RAYTRACING_INSTANCE_DESC : Nat := 64

/-- Vertex.h: struct Vertex holds XMFLOAT3 + XMFLOAT2 + XMFLOAT3 + XMFLOAT3,
    eleven floats, 44 bytes. -/
def sizeof_Vertex : Nat := 44

/-- Graphics.h line 21: const unsigned int MaxConstantBuffers = 1000. -/
def MaxConstantBuffers : Nat := 1000

/-- Graphics.h line 30: const unsigned int MaxTextureDescriptors = 1000. -/
def MaxTextureDescriptors : Nat := 1000

/-- Graphics.cpp (Initialize): cbUploadHeapSizeInBytes = MaxConstantBuffers * 256. -/
def cbUploadHeapSizeInBytes : Nat := MaxConstantBuffers * 256

/-! ### The ALIGN macro (RayTracing.cpp line 21) -/

/-- RayTracing.cpp: ALIGN(value, alignment) computes
    ((value + alignment - 1) / alignment) * alignment with integer division. -/
def ALIGN (value alignment : Nat) : Nat :=
  ((value + alignment - 1) / alignment) * alignment

/-- ALIGN is monotone in its value argument. -/
theorem ALIGN_mono {v w : Nat} (a : Nat) (h : v ≤ w) : ALIGN v a ≤ ALIGN w a := by
  unfold ALIGN
  exact Nat.mul_le_mul_right _ (Nat.div_le_div_right (by omega))

/-- r is v rounded up to the next multiple of a: a divides r, r is at least v,
    and r overshoots v by less than a. -/
def IsAlignedUp (v a r : Nat) : Prop := a ∣ r ∧ v ≤ r ∧ r < v + a

/-- ALIGN with the acceleration-structure alignment (256) rounds up to the
    next multiple of 256. -/
theorem ALIGN_256_isAlignedUp (v : Nat) : IsAlignedUp v 256 (ALIGN v 256) := by
  unfold IsAlignedUp ALIGN
  omega

/-! ### Claim C1: shader-table record stride and table length
(RayTracing.cpp, CreateShaderTable lines 370-384) -/

/-- CreateShaderTable lines 370-380: the three candidate record sizes are each
    aligned up to the record alignment individually, then the maximum is taken
    (the source computes max(rayGen, max(miss, hitGroup))). -/
def computeShaderTableRecordSize (idSize handleSize recordAlignment : Nat) : Nat :=
  let shaderTableRayGenRecordSize := ALIGN idSize recordAlignment
  let shaderTableMissRecordSize := ALIGN idSize recordAlignment
  let shaderTableHitGroupRecordSize := ALIGN (idSize + handleSize * 2) recordAlignment
  max shaderTableRayGenRecordSize (max shaderTableMissRecordSize shaderTableHitGroupRecordSize)

/-- CreateShaderTable lines 383-384: table size is record size times 3, aligned
    up to the table alignment. -/
def computeShaderTableSize (idSize handleSize recordAlignment tableAlignment : Nat) : Nat :=
  ALIGN (computeShaderTableRecordSize idSize handleSize recordAlignment * 3) tableAlignment

/-- The record stride exactly as the spec phrases it:
    align(max(idSize, idSize + 2 * handleSize), recordAlignment). -/
def specRecordStride (idSize handleSize recordAlignment : Nat) : Nat :=
  ALIGN (max idSize (idSize + 2 * handleSize)) recordAlignment

/-- The table length exactly as the spec phrases it:
    align(3 * stride, tableAlignment). -/
def specTableLength (idSize handleSize recordAlignment tableAlignment : Nat) : Nat :=
  ALIGN (3 * specRecordStride idSize handleSize recordAlignment) tableAlignment

/-- Claim C1: the implementation's max-of-individually-aligned-candidates record
    stride equals the spec's align-of-max formula, and the allocated table
    length equals align(3 * stride, tableAlignment), for all positive
    record and table alignments. -/
theorem claim_C1_record_stride_and_table_length
    (idSize handleSize recordAlignment tableAlignment : Nat)
    (hrA : 0 < recordAlignment) (htA : 0 < tableAlignment) :
    computeShaderTableRecordSize idSize handleSize recordAlignment
      = specRecordStride idSize handleSize recordAlignment ∧
    computeShaderTableSize idSize handleSize recordAlignment tableAlignment
      = specTableLength idSize handleSize recordAlignment tableAlignment := by
  have hmax : computeShaderTableRecordSize idSize handleSize recordAlignment
      = ALIGN (idSize + handleSize * 2) recordAlignment := by
    unfold computeShaderTableRecordSize
    have h1 : ALIGN idSize recordAlignment ≤ ALIGN (idSize + handleSize * 2) recordAlignment :=
      ALIGN_mono recordAlignment (Nat.le_add_right _ _)
    simp only [Nat.max_eq_right h1]
  have hspec : specRecordStride idSize handleSize recordAlignment
      = ALIGN (idSize + handleSize * 2) recordAlignment := by
    unfold specRecordStride
    rw [Nat.mul_comm 2 handleSize, Nat.max_eq_right (Nat.le_add_right _ _)]
  refine ⟨hmax.trans hspec.symm, ?_⟩
  unfold computeShaderTableSize specTableLength
  rw [hmax, hspec, Nat.mul_comm]

/-- Witness for C1 at the concrete D3D12 constants (32, 8, 32, 64). -/
theorem claim_C1_record_stride_and_table_length_witness :
    computeShaderTableRecordSize 32 8 32 = specRecordStride 32 8 32 ∧
    computeShaderTableSize 32 8 32 64 = specTableLength 32 8 32 64 :=
  claim_C1_record_stride_and_table_length 32 8 32 64 (by decide) (by decide)

/-! ### Graphics descriptor-heap and upload-ring state (Graphics.cpp) -/

/-- The file-local allocator state of Graphics.cpp: the descriptor-handle
    increment size and heap start addresses queried from the device at
    initialization, the two descriptor cursors, the upload-ring offset, and
    the upload heap's GPU virtual address. -/
structure GraphicsState where
  cbvSrvDescriptorHeapIncrementSize : Nat
  heapStartCPU : Nat
  heapStartGPU : Nat
  cbvDescriptorOffset : Nat
  srvDescriptorOffset : Nat
  cbUploadHeapOffsetInBytes : Nat
  cbUploadHeapGPUAddress : Nat
deriving DecidableEq

/-- Graphics::Initialize (Graphics.cpp lines 294-326): the CBV cursor starts at
    slot 0, the SRV/UAV cursor starts at slot MaxConstantBuffers, and the
    upload-ring offset starts at byte 0.  The increment size, heap start
    handles and upload-heap address come from the device and are parameters. -/
def graphicsInit (incrementSize heapStartCPU heapStartGPU uploadHeapGPUAddress : Nat) :
    GraphicsState :=
  { cbvSrvDescriptorHeapIncrementSize := incrementSize
    heapStartCPU := heapStartCPU
    heapStartGPU := heapStartGPU
    cbvDescriptorOffset := 0
    srvDescriptorOffset := MaxConstantBuffers
    cbUploadHeapOffsetInBytes := 0
    cbUploadHeapGPUAddress := uploadHeapGPUAddress }

/-- The observable effect of one FillNextConstantBufferAndGetGPUDescriptorHandle
    call: the GPU descriptor handle it returns, the 256-aligned reservation, the
    upload-heap byte offset the data was memcpy'd to, the CBV description
    (buffer location and size) and the descriptor slot the CBV was created in. -/
structure FillResult where
  gpuHandle : Nat
  reservationSize : Nat
  writeOffset : Nat
  bufferLocation : Nat
  cpuHandle : Nat
  cbvSlot : Nat
deriving DecidableEq

/-- Graphics::FillNextConstantBufferAndGetGPUDescriptorHandle
    (Graphics.cpp lines 693-759): round the data size up to a multiple of 256;
    reset the upload offset to 0 if offset + reservation >= capacity; memcpy at
    the resulting offset; advance the offset by the reservation, wrapping to 0
    at capacity; create a CBV in descriptor slot cbvDescriptorOffset and advance
    that cursor, wrapping to 0 at MaxConstantBuffers; return the GPU handle of
    the slot the CBV was created in. -/
def fillNextConstantBufferAndGetGPUDescriptorHandle
    (g : GraphicsState) (dataSizeInBytes : Nat) : FillResult × GraphicsState :=
  let reservationSize := (dataSizeInBytes + 255) / 256 * 256
  let offsetAfterWrapCheck :=
    if cbUploadHeapSizeInBytes ≤ g.cbUploadHeapOffsetInBytes + reservationSize then 0
    else g.cbUploadHeapOffsetInBytes
  let virtualGPUAddress := g.cbUploadHeapGPUAddress + offsetAfterWrapCheck
  let offsetAfterAdvance := offsetAfterWrapCheck + reservationSize
  let nextUploadOffset :=
    if cbUploadHeapSizeInBytes ≤ offsetAfterAdvance then 0 else offsetAfterAdvance
  let cpuHandle := g.heapStartCPU + g.cbvDescriptorOffset * g.cbvSrvDescriptorHeapIncrementSize
  let gpuHandle := g.heapStartGPU + g.cbvDescriptorOffset * g.cbvSrvDescriptorHeapIncrementSize
  let nextCbvOffset :=
    if MaxConstantBuffers ≤ g.cbvDescriptorOffset + 1 then 0 else g.cbvDescriptorOffset + 1
  (⟨gpuHandle, reservationSize, offsetAfterWrapCheck, virtualGPUAddress,
    cpuHandle, g.cbvDescriptorOffset⟩,
   { g with cbUploadHeapOffsetInBytes := nextUploadOffset,
            cbvDescriptorOffset := nextCbvOffset })

/-- Graphics::ReserveSrvUavDescriptorHeapSlot (Graphics.cpp lines 845-861):
    hands out the CPU and GPU handles at the current SRV/UAV cursor and
    advances the cursor by one (no wrap). -/
def reserveSrvUavDescriptorHeapSlot (g : GraphicsState) : (Nat × Nat) × GraphicsState :=
  let cpuHandle := g.heapStartCPU + g.srvDescriptorOffset * g.cbvSrvDescriptorHeapIncrementSize
  let gpuHandle := g.heapStartGPU + g.srvDescriptorOffset * g.cbvSrvDescriptorHeapIncrementSize
  ((cpuHandle, gpuHandle), { g with srvDescriptorOffset := g.srvDescriptorOffset + 1 })

/-- Claim C2: the reservation is the data size rounded up to a multiple of 256;
    the offset is reset to 0 before writing exactly when offset + reservation
    reaches or exceeds capacity, for every state (no fence or GPU-consumption
    condition); the data is copied at the resulting offset; and the offset then
    advances by exactly the reservation, wrapping to 0 when it reaches or
    exceeds capacity. -/
theorem claim_C2_upload_ring_reserve (g : GraphicsState) (dataSizeInBytes : Nat) :
    (256 ∣ (fillNextConstantBufferAndGetGPUDescriptorHandle g dataSizeInBytes).1.reservationSize ∧
     dataSizeInBytes ≤
       (fillNextConstantBufferAndGetGPUDescriptorHandle g dataSizeInBytes).1.reservationSize ∧
     (fillNextConstantBufferAndGetGPUDescriptorHandle g dataSizeInBytes).1.reservationSize <
       dataSizeInBytes + 256) ∧
    (cbUploadHeapSizeInBytes ≤ g.cbUploadHeapOffsetInBytes +
        (fillNextConstantBufferAndGetGPUDescriptorHandle g dataSizeInBytes).1.reservationSize →
      (fillNextConstantBufferAndGetGPUDescriptorHandle g dataSizeInBytes).1.writeOffset = 0) ∧
    (g.cbUploadHeapOffsetInBytes +
        (fillNextConstantBufferAndGetGPUDescriptorHandle g dataSizeInBytes).1.reservationSize <
        cbUploadHeapSizeInBytes →
      (fillNextConstantBufferAndGetGPUDescriptorHandle g dataSizeInBytes).1.writeOffset =
        g.cbUploadHeapOffsetInBytes) ∧
    ((fillNextConstantBufferAndGetGPUDescriptorHandle g dataSizeInBytes).1.bufferLocation =
      g.cbUploadHeapGPUAddress +
        (fillNextConstantBufferAndGetGPUDescriptorHandle g dataSizeInBytes).1.writeOffset) ∧
    (cbUploadHeapSizeInBytes ≤
        (fillNextConstantBufferAndGetGPUDescriptorHandle g dataSizeInBytes).1.writeOffset +
        (fillNextConstantBufferAndGetGPUDescriptorHandle g dataSizeInBytes).1.reservationSize →
      (fillNextConstantBufferAndGetGPUDescriptorHandle g dataSizeInBytes).2.cbUploadHeapOffsetInBytes
        = 0) ∧
    ((fillNextConstantBufferAndGetGPUDescriptorHandle g dataSizeInBytes).1.writeOffset +
        (fillNextConstantBufferAndGetGPUDescriptorHandle g dataSizeInBytes).1.reservationSize <
        cbUploadHeapSizeInBytes →
      (fillNextConstantBufferAndGetGPUDescriptorHandle g dataSizeInBytes).2.cbUploadHeapOffsetInBytes
        = (fillNextConstantBufferAndGetGPUDescriptorHandle g dataSizeInBytes).1.writeOffset +
          (fillNextConstantBufferAndGetGPUDescriptorHandle g dataSizeInBytes).1.reservationSize) := by
  unfold fillNextConstantBufferAndGetGPUDescriptorHandle
  dsimp only
  unfold cbUploadHeapSizeInBytes MaxConstantBuffers
  split <;> (try split) <;> omega

/-- Witness for C2: the boundary case where offset + reservation exactly equals
    capacity triggers the wrap to 0 before writing. -/
theorem claim_C2_upload_ring_reserve_witness :
    (fillNextConstantBufferAndGetGPUDescriptorHandle
        { graphicsInit 32 4096 8192 65536 with cbUploadHeapOffsetInBytes := 255488 }
        300).1.writeOffset = 0 ∧
    (fillNextConstantBufferAndGetGPUDescriptorHandle
        { graphicsInit 32 4096 8192 65536 with cbUploadHeapOffsetInBytes := 255488 }
        300).1.reservationSize = 512 := by
  have h := claim_C2_upload_ring_reserve
    { graphicsInit 32 4096 8192 65536 with cbUploadHeapOffsetInBytes := 255488 } 300
  exact ⟨h.2.1 (by decide), by decide⟩

/-! ### Claim C10: the upload/CBV allocator invariant -/

/-- The allocator invariant: the upload-ring offset is a multiple of 256 and
    strictly below capacity, and the CBV descriptor cursor is strictly below
    MaxConstantBuffers. -/
def UploadAllocatorInvariant (g : GraphicsState) : Prop :=
  g.cbUploadHeapOffsetInBytes % 256 = 0 ∧
  g.cbUploadHeapOffsetInBytes < cbUploadHeapSizeInBytes ∧
  g.cbvDescriptorOffset < MaxConstantBuffers

instance (g : GraphicsState) : Decidable (UploadAllocatorInvariant g) := by
  unfold UploadAllocatorInvariant; infer_instance

/-- Claim C10: the invariant is established by Graphics::Initialize and
    preserved by every FillNextConstantBufferAndGetGPUDescriptorHandle call,
    and every constant-buffer view is created in a descriptor slot strictly
    below MaxConstantBuffers (so it never reaches the SRV/UAV region that
    begins at slot MaxConstantBuffers). -/
theorem claim_C10_allocator_invariant
    (incrementSize heapStartCPU heapStartGPU uploadHeapGPUAddress : Nat)
    (g : GraphicsState) (dataSizeInBytes : Nat)
    (hg : UploadAllocatorInvariant g) :
    UploadAllocatorInvariant
      (graphicsInit incrementSize heapStartCPU heapStartGPU uploadHeapGPUAddress) ∧
    UploadAllocatorInvariant
      (fillNextConstantBufferAndGetGPUDescriptorHandle g dataSizeInBytes).2 ∧
    (fillNextConstantBufferAndGetGPUDescriptorHandle g dataSizeInBytes).1.cbvSlot
      < MaxConstantBuffers := by
  obtain ⟨h1, h2, h3⟩ := hg
  refine ⟨?_, ?_, ?_⟩
  · simp [UploadAllocatorInvariant, graphicsInit, cbUploadHeapSizeInBytes, MaxConstantBuffers]
  · unfold fillNextConstantBufferAndGetGPUDescriptorHandle UploadAllocatorInvariant
    dsimp only
    simp only [cbUploadHeapSizeInBytes, MaxConstantBuffers] at h2 h3 ⊢
    split <;> (try split) <;> (try split) <;> omega
  · unfold fillNextConstantBufferAndGetGPUDescriptorHandle
    dsimp only
    unfold MaxConstantBuffers at h3 ⊢
    omega

/-- Witness for C10 at the freshly initialized state and one fill call. -/
theorem claim_C10_allocator_invariant_witness :
    UploadAllocatorInvariant (graphicsInit 32 4096 8192 65536) ∧
    UploadAllocatorInvariant
      (fillNextConstantBufferAndGetGPUDescriptorHandle (graphicsInit 32 4096 8192 65536) 76).2 ∧
    (fillNextConstantBufferAndGetGPUDescriptorHandle
        (graphicsInit 32 4096 8192 65536) 76).1.cbvSlot < MaxConstantBuffers := by
  have h := claim_C10_allocator_invariant 32 4096 8192 65536
    (graphicsInit 32 4096 8192 65536) 76 (by decide)
  exact ⟨h.1, h.2.1, h.2.2⟩

/-! ### RayTracing module state (RayTracing.h / RayTracing.cpp) -/

/-- A GPU buffer resource: its byte size (desc.Width in Graphics::CreateBuffer)
    and the GPU virtual address the driver assigned to it. -/
structure GPUResource where
  sizeInBytes : Nat
  gpuVirtualAddress : Nat
deriving DecidableEq

/-- The RayTracing namespace globals (RayTracing.h lines 15-48 and the
    file-local dxrAvailable / dxrInitialized flags).  Resources are Option,
    none standing for a null ComPtr.  RaytracingOutput records the texture's
    width and height.  Descriptor handles are their ptr values, 0 = null. -/
structure RTState where
  dxrAvailable : Bool
  dxrInitialized : Bool
  ShaderTableRecordSize : Nat
  ShaderTable : Option GPUResource
  TLASScratchBuffer : Option GPUResource
  BLASScratchBuffer : Option GPUResource
  TLASInstanceDescBuffer : Option GPUResource
  TLAS : Option GPUResource
  BLAS : Option GPUResource
  RaytracingOutput : Option (Nat × Nat)
  RaytracingOutputUAV_CPU : Nat
  RaytracingOutputUAV_GPU : Nat
  indexBufferSRV : Nat
  vertexBufferSRV : Nat
deriving DecidableEq

/-- The initial values of the RayTracing globals: flags false, sizes zero,
    every resource pointer and descriptor handle null. -/
def rtInitialState : RTState :=
  { dxrAvailable := false
    dxrInitialized := false
    ShaderTableRecordSize := 0
    ShaderTable := none
    TLASScratchBuffer := none
    BLASScratchBuffer := none
    TLASInstanceDescBuffer := none
    TLAS := none
    BLAS := none
    RaytracingOutput := none
    RaytracingOutputUAV_CPU := 0
    RaytracingOutputUAV_GPU := 0
    indexBufferSRV := 0
    vertexBufferSRV := 0 }

/-- A CPU-side write into the mapped shader-table buffer: either a memcpy of a
    shader identifier fetched by export name, or a memcpy of a GPU descriptor
    handle; offset is the byte offset from the start of the table. -/
inductive TableWrite where
  | shaderIdentifier (exportName : String) (offset : Nat)
  | descriptorHandle (handle : Nat) (offset : Nat)
deriving DecidableEq

/-- The dispatch description filled in by RayTracing::Raytrace
    (D3D12_DISPATCH_RAYS_DESC, RayTracing.cpp lines 765-784). -/
structure DispatchRaysDesc where
  rayGenerationShaderRecordStartAddress : Nat
  rayGenerationShaderRecordSizeInBytes : Nat
  missShaderTableStartAddress : Nat
  missShaderTableSizeInBytes : Nat
  missShaderTableStrideInBytes : Nat
  hitGroupTableStartAddress : Nat
  hitGroupTableSizeInBytes : Nat
  hitGroupTableStrideInBytes : Nat
  width : Nat
  height : Nat
  depth : Nat
deriving DecidableEq

/-- A device or command-list call issued by the modelled functions. -/
inductive GPUCall where
  | resourceBarrier (numBarriers : Nat)
  | setDescriptorHeaps (numHeaps : Nat)
  | setPipelineState1
  | setComputeRootSignature
  | setComputeRootDescriptorTable (rootParameterIndex : Nat) (baseDescriptor : Nat)
  | setComputeRootShaderResourceView (rootParameterIndex : Nat) (bufferLocation : Nat)
  | dispatchRays (desc : DispatchRaysDesc)
  | copyResource
  | closeCommandList
  | executeCommandLists (numLists : Nat)
  | createBuffer (sizeInBytes : Nat)
  | createCommittedResource (width : Nat) (height : Nat)
  | createUnorderedAccessView (destDescriptor : Nat)
  | createConstantBufferView (bufferLocation : Nat) (sizeInBytes : Nat) (destDescriptor : Nat)
  | createShaderResourceView (numElements : Nat) (destDescriptor : Nat)
  | buildRaytracingAccelerationStructure (scratchAddress : Nat) (destAddress : Nat)
  | waitForGPU
deriving DecidableEq

/-- RayTracing::CreateShaderTable (RayTracing.cpp lines 356-404): compute the
    record stride (maximum of the three individually aligned record sizes) and
    the aligned table size, create the upload-heap table buffer, and memcpy the
    RayGen, Miss and HitGroup shader identifiers at offsets 0, stride and
    stride + stride.  Guarded: does nothing once initialized or without DXR.
    The buffer's GPU virtual address is assigned by the driver (parameter). -/
def createShaderTable (rt : RTState) (tableBufferAddress : Nat) :
    RTState × List GPUCall × List TableWrite :=
  if rt.dxrInitialized || !rt.dxrAvailable then (rt, [], [])
  else
    let stride := computeShaderTableRecordSize
      D3D12_SHADER_IDENTIFIER_SIZE_IN_BYTES
      sizeof_D3D12_GPU_DESCRIPTOR_HANDLE
      D3D12_RAYTRACING_SHADER_RECORD_BYTE_ALIGNMENT
    let shaderTableSize := ALIGN (stride * 3) D3D12_RAYTRACING_SHADER_TABLE_BYTE_ALIGNMENT
    ({ rt with
        ShaderTableRecordSize := stride
        ShaderTable := some ⟨shaderTableSize, tableBufferAddress⟩ },
     [GPUCall.createBuffer shaderTableSize],
     [TableWrite.shaderIdentifier "RayGen" 0,
      TableWrite.shaderIdentifier "Miss" stride,
      TableWrite.shaderIdentifier "HitGroup" (stride + stride)])

/-- RayTracing::CreateRaytracingOutputUAV (RayTracing.cpp lines 413-462):
    create the width x height output texture; reserve an SRV/UAV descriptor
    slot only if the GPU handle is still null; create the UAV in the (possibly
    previously reserved) CPU slot. -/
def createRaytracingOutputUAV (rt : RTState) (g : GraphicsState) (width height : Nat) :
    List GPUCall × RTState × GraphicsState :=
  let rt1 := { rt with RaytracingOutput := some (width, height) }
  let (rt2, g2) :=
    if rt1.RaytracingOutputUAV_GPU = 0 then
      let (handles, gNext) := reserveSrvUavDescriptorHeapSlot g
      ({ rt1 with RaytracingOutputUAV_CPU := handles.1, RaytracingOutputUAV_GPU := handles.2 },
       gNext)
    else (rt1, g)
  ([GPUCall.createCommittedResource width height,
    GPUCall.createUnorderedAccessView rt2.RaytracingOutputUAV_CPU],
   rt2, g2)

/-- RayTracing::ResizeOutputUAV (RayTracing.cpp lines 468-481): silently
    returns unless initialized and available; otherwise waits for the GPU,
    discards the old output texture and recreates it at the new size. -/
def resizeOutputUAV (rt : RTState) (g : GraphicsState) (outputWidth outputHeight : Nat) :
    List GPUCall × RTState × GraphicsState :=
  if !rt.dxrInitialized || !rt.dxrAvailable then ([], rt, g)
  else
    let rtReset := { rt with RaytracingOutput := none }
    let (calls, rt2, g2) := createRaytracingOutputUAV rtReset g outputWidth outputHeight
    (GPUCall.waitForGPU :: calls, rt2, g2)

/-- The HRESULTs observed by RayTracing::Initialize: the CheckFeatureSupport
    result, whether the reported RaytracingTier differs from
    D3D12_RAYTRACING_TIER_NOT_SUPPORTED, and the two QueryInterface results. -/
structure InitInputs where
  supportResult : Int
  raytracingTierSupported : Bool
  dxrDeviceResult : Int
  dxrCommandListResult : Int
deriving DecidableEq

/-- The FAILED macro: an HRESULT is a failure code iff it is negative. -/
def FAILED (hr : Int) : Bool := hr < 0

/-- The outcome of RayTracing::Initialize: the returned HRESULT, the device and
    command-list calls the setup steps issued, the shader-table writes, and the
    resulting RayTracing and Graphics states. -/
structure InitOutcome where
  hresult : Int
  setupCalls : List GPUCall
  tableWrites : List TableWrite
  rtState : RTState
  gfx : GraphicsState
deriving DecidableEq

/-- RayTracing::Initialize (RayTracing.cpp lines 28-62): check feature support
    and the two interface queries; on any of the three early-out conditions
    return the corresponding HRESULT with the globals untouched and no setup
    step run.  Otherwise set dxrAvailable, run the setup steps (root
    signatures and pipeline state carry no modelled state; then the shader
    table and the output UAV), set dxrInitialized, and return S_OK (0). -/
def rayTracingInit (inp : InitInputs) (g : GraphicsState)
    (outputWidth outputHeight tableBufferAddress : Nat) : InitOutcome :=
  if FAILED inp.supportResult || !inp.raytracingTierSupported then
    ⟨inp.supportResult, [], [], rtInitialState, g⟩
  else if FAILED inp.dxrDeviceResult then
    ⟨inp.dxrDeviceResult, [], [], rtInitialState, g⟩
  else if FAILED inp.dxrCommandListResult then
    ⟨inp.dxrCommandListResult, [], [], rtInitialState, g⟩
  else
    let rtAvail := { rtInitialState with dxrAvailable := true }
    let (rtTable, tableCalls, writes) := createShaderTable rtAvail tableBufferAddress
    let (uavCalls, rtUAV, g2) := createRaytracingOutputUAV rtTable g outputWidth outputHeight
    ⟨0, tableCalls ++ uavCalls, writes, { rtUAV with dxrInitialized := true }, g2⟩

/-- The mesh interface consumed by CreateBLAS (Mesh.h): vertex and index
    counts and the GPU addresses of the two geometry buffers. -/
structure Mesh where
  vertexCount : Nat
  indexCount : Nat
  vertexBufferAddress : Nat
  indexBufferAddress : Nat
deriving DecidableEq

/-- D3D12_RAYTRACING_ACCELERATION_STRUCTURE_PREBUILD_INFO as returned by
    ID3D12Device5::GetRaytracingAccelerationStructurePrebuildInfo. -/
structure PrebuildInfo where
  ScratchDataSizeInBytes : Nat
  ResultDataMaxSizeInBytes : Nat
deriving DecidableEq

/-- RayTracing::CreateBLAS (RayTracing.cpp lines 490-609): guarded on
    dxrAvailable; aligns the device-reported scratch and result sizes up to the
    acceleration-structure alignment and allocates both buffers at those exact
    sizes; records the build and its barrier; reserves two adjacent SRV/UAV
    descriptor slots, index buffer first, then vertex buffer; creates the two
    raw-buffer SRVs; and memcpys the index-buffer SRV GPU handle into the
    shader table at the offset two records plus identifier plus one descriptor
    handle (skipping the hit-group record's CBV slot).  The device-assigned
    buffer addresses are parameters. -/
def createBLAS (rt : RTState) (g : GraphicsState) (mesh : Mesh)
    (prebuild : PrebuildInfo) (scratchAddress resultAddress : Nat) :
    RTState × GraphicsState × List GPUCall × List TableWrite :=
  if !rt.dxrAvailable then (rt, g, [], [])
  else
    let scratchSize := ALIGN prebuild.ScratchDataSizeInBytes
      D3D12_RAYTRACING_ACCELERATION_STRUCTURE_BYTE_ALIGNMENT
    let resultSize := ALIGN prebuild.ResultDataMaxSizeInBytes
      D3D12_RAYTRACING_ACCELERATION_STRUCTURE_BYTE_ALIGNMENT
    let (ibHandles, g1) := reserveSrvUavDescriptorHeapSlot g
    let (vbHandles, g2) := reserveSrvUavDescriptorHeapSlot g1
    let patchOffset := rt.ShaderTableRecordSize + rt.ShaderTableRecordSize
      + D3D12_SHADER_IDENTIFIER_SIZE_IN_BYTES + sizeof_D3D12_GPU_DESCRIPTOR_HANDLE
    ({ rt with
        BLASScratchBuffer := some ⟨scratchSize, scratchAddress⟩
        BLAS := some ⟨resultSize, resultAddress⟩
        indexBufferSRV := ibHandles.2
        vertexBufferSRV := vbHandles.2 },
     g2,
     [GPUCall.createBuffer scratchSize,
      GPUCall.createBuffer resultSize,
      GPUCall.buildRaytracingAccelerationStructure scratchAddress resultAddress,
      GPUCall.resourceBarrier 1,
      GPUCall.createShaderResourceView mesh.indexCount ibHandles.1,
      GPUCall.createShaderResourceView (mesh.vertexCount * sizeof_Vertex / 4) vbHandles.1],
     [TableWrite.descriptorHandle ibHandles.2 patchOffset])

/-- The D3D12_RAYTRACING_INSTANCE_DESC filled in by CreateTLAS. -/
structure InstanceDesc where
  InstanceID : Nat
  InstanceContributionToHitGroupIndex : Nat
  InstanceMask : Nat
  Transform : Fin 3 → Fin 4 → Nat
  AccelerationStructure : Nat
deriving DecidableEq

/-- The zero-initialized 3x4 transform with entries [0][0], [1][1], [2][2] set
    to 1 (RayTracing.cpp lines 628-630): the identity. -/
def tlasInstanceTransform : Fin 3 → Fin 4 → Nat := fun i j =>
  if i.val = 0 ∧ j.val = 0 then 1
  else if i.val = 1 ∧ j.val = 1 then 1
  else if i.val = 2 ∧ j.val = 2 then 1
  else 0

/-- RayTracing::CreateTLAS (RayTracing.cpp lines 617-704): guarded on
    dxrAvailable; builds a single instance description (identity transform,
    mask 0xFF, hit-group offset 0) pointing at the BLAS address — dereferencing
    the BLAS ComPtr, so a null BLAS faults (none result); uploads it to an
    instance buffer; aligns the device-reported scratch and result sizes and
    allocates both buffers; builds, barriers, executes and waits.  Returns the
    new state and the marshalled instance list. -/
def createTLAS (rt : RTState) (prebuild : PrebuildInfo)
    (instanceDescBufferAddress scratchAddress resultAddress : Nat) :
    Option (RTState × List InstanceDesc × List GPUCall) :=
  if !rt.dxrAvailable then some (rt, [], [])
  else
    match rt.BLAS with
    | none => none
    | some blas =>
      let instanceDesc : InstanceDesc :=
        { InstanceID := 0
          InstanceContributionToHitGroupIndex := 0
          InstanceMask := 0xFF
          Transform := tlasInstanceTransform
          AccelerationStructure := blas.gpuVirtualAddress }
      let scratchSize := ALIGN prebuild.ScratchDataSizeInBytes
        D3D12_RAYTRACING_ACCELERATION_STRUCTURE_BYTE_ALIGNMENT
      let resultSize := ALIGN prebuild.ResultDataMaxSizeInBytes
        D3D12_RAYTRACING_ACCELERATION_STRUCTURE_BYTE_ALIGNMENT
      some
        ({ rt with
            TLASInstanceDescBuffer :=
              some ⟨sizeof_D3D12_RAYTRACING_INSTANCE_DESC, instanceDescBufferAddress⟩
            TLASScratchBuffer := some ⟨scratchSize, scratchAddress⟩
            TLAS := some ⟨resultSize, resultAddress⟩ },
         [instanceDesc],
         [GPUCall.createBuffer sizeof_D3D12_RAYTRACING_INSTANCE_DESC,
          GPUCall.createBuffer scratchSize,
          GPUCall.createBuffer resultSize,
          GPUCall.buildRaytracingAccelerationStructure scratchAddress resultAddress,
          GPUCall.resourceBarrier 1,
          GPUCall.closeCommandList,
          GPUCall.executeCommandLists 1,
          GPUCall.waitForGPU])

/-- Modelled from the spec: BufferStructs.h is not under src/.  Per the spec,
    RaytracingSceneData holds a camera world position (an XMFLOAT3, 12 bytes)
    and the inverse view-projection matrix (an XMFLOAT4X4, 64 bytes). -/
def sizeof_RaytracingSceneData : Nat := 76

/-- RayTracing::Raytrace (RayTracing.cpp lines 710-814): silently returns
    (no command recorded, no state changed) unless initialized and available;
    otherwise records the two-barrier batch, fills the next constant buffer
    (scene data; the camera floating-point contents are not modelled, only the
    upload and its CBV), binds heap, pipeline, global root signature and its
    three parameters, dispatches rays with the three shader-table regions at
    base, base + stride and base + stride * 2 (each sized and strided by the
    record stride) at window width x height x 1, transitions and copies the
    output into the back buffer, closes and executes.  Dereferences the
    ShaderTable and TLAS ComPtrs, so either being null faults (none). -/
def raytrace (rt : RTState) (g : GraphicsState) (windowWidth windowHeight : Nat) :
    Option (List GPUCall × GraphicsState) :=
  if !rt.dxrInitialized || !rt.dxrAvailable then some ([], g)
  else
    match rt.ShaderTable, rt.TLAS with
    | some shaderTable, some tlas =>
      let (fillResult, gNext) :=
        fillNextConstantBufferAndGetGPUDescriptorHandle g sizeof_RaytracingSceneData
      let cbuffer := fillResult.gpuHandle
      let stride := rt.ShaderTableRecordSize
      let dispatchDesc : DispatchRaysDesc :=
        { rayGenerationShaderRecordStartAddress := shaderTable.gpuVirtualAddress
          rayGenerationShaderRecordSizeInBytes := stride
          missShaderTableStartAddress := shaderTable.gpuVirtualAddress + stride
          missShaderTableSizeInBytes := stride
          missShaderTableStrideInBytes := stride
          hitGroupTableStartAddress := shaderTable.gpuVirtualAddress + stride * 2
          hitGroupTableSizeInBytes := stride
          hitGroupTableStrideInBytes := stride
          width := windowWidth
          height := windowHeight
          depth := 1 }
      some
        ([GPUCall.resourceBarrier 2,
          GPUCall.createConstantBufferView fillResult.bufferLocation
            fillResult.reservationSize fillResult.cpuHandle,
          GPUCall.setDescriptorHeaps 1,
          GPUCall.setPipelineState1,
          GPUCall.setComputeRootSignature,
          GPUCall.setComputeRootDescriptorTable 0 rt.RaytracingOutputUAV_GPU,
          GPUCall.setComputeRootShaderResourceView 1 tlas.gpuVirtualAddress,
          GPUCall.setComputeRootDescriptorTable 2 cbuffer,
          GPUCall.dispatchRays dispatchDesc,
          GPUCall.resourceBarrier 1,
          GPUCall.copyResource,
          GPUCall.resourceBarrier 1,
          GPUCall.closeCommandList,
          GPUCall.executeCommandLists 1],
         gNext)
    | _, _ => none

/-! ### Claim C3: Initialize failure behaviour (corrected) -/

/-- Claim C3 counterexample: when CheckFeatureSupport itself succeeds (returns
    S_OK = 0) but reports the tier as NOT_SUPPORTED, Initialize returns
    supportResult = 0, which is a success code, not a failure status — the
    claim's "returns a capability-absent (failure) status" fails here.  The
    flags do remain false. -/
theorem claim_C3_counterexample :
    (rayTracingInit ⟨0, false, 0, 0⟩ (graphicsInit 32 4096 8192 65536) 1280 720 4096).hresult
      = 0 ∧
    FAILED
      (rayTracingInit ⟨0, false, 0, 0⟩ (graphicsInit 32 4096 8192 65536) 1280 720 4096).hresult
      = false ∧
    (rayTracingInit ⟨0, false, 0, 0⟩ (graphicsInit 32 4096 8192 65536) 1280 720 4096).rtState
      = rtInitialState := by
  decide

/-- Claim C3 amended: whenever the tier is reported unsupported or either DXR
    interface query fails, Initialize returns early with both flags false, no
    setup step run and the Graphics state untouched, returning the HRESULT of
    the check that cut it short — a failure code in the interface-query cases,
    but possibly S_OK in the tier-unsupported case. -/
theorem claim_C3_disabled_no_setup (inp : InitInputs) (g : GraphicsState)
    (outputWidth outputHeight tableBufferAddress : Nat)
    (hcond : inp.raytracingTierSupported = false ∨
             inp.dxrDeviceResult < 0 ∨ inp.dxrCommandListResult < 0) :
    (rayTracingInit inp g outputWidth outputHeight tableBufferAddress).rtState
      = rtInitialState ∧
    (rayTracingInit inp g outputWidth outputHeight tableBufferAddress).gfx = g ∧
    (rayTracingInit inp g outputWidth outputHeight tableBufferAddress).setupCalls = [] ∧
    (rayTracingInit inp g outputWidth outputHeight tableBufferAddress).tableWrites = [] ∧
    ((rayTracingInit inp g outputWidth outputHeight tableBufferAddress).hresult
        = inp.supportResult ∨
     ((rayTracingInit inp g outputWidth outputHeight tableBufferAddress).hresult
        = inp.dxrDeviceResult ∧ inp.dxrDeviceResult < 0) ∨
     ((rayTracingInit inp g outputWidth outputHeight tableBufferAddress).hresult
        = inp.dxrCommandListResult ∧ inp.dxrCommandListResult < 0)) := by
  unfold rayTracingInit FAILED
  rcases hcond with h | h | h <;>
    split <;> (try split) <;> (try split) <;> simp_all

/-- Witness for the amended C3 at the tier-unsupported input. -/
theorem claim_C3_disabled_no_setup_witness :
    (rayTracingInit ⟨0, false, 0, 0⟩ (graphicsInit 32 4096 8192 65536) 1280 720 4096).rtState
      = rtInitialState ∧
    (rayTracingInit ⟨0, false, 0, 0⟩ (graphicsInit 32 4096 8192 65536) 1280 720 4096).gfx
      = graphicsInit 32 4096 8192 65536 ∧
    (rayTracingInit ⟨0, false, 0, 0⟩ (graphicsInit 32 4096 8192 65536) 1280 720 4096).setupCalls
      = [] ∧
    (rayTracingInit ⟨0, false, 0, 0⟩ (graphicsInit 32 4096 8192 65536) 1280 720 4096).tableWrites
      = [] ∧
    ((rayTracingInit ⟨0, false, 0, 0⟩ (graphicsInit 32 4096 8192 65536) 1280 720 4096).hresult
        = (0 : Int) ∨
     ((rayTracingInit ⟨0, false, 0, 0⟩ (graphicsInit 32 4096 8192 65536) 1280 720 4096).hresult
        = (0 : Int) ∧ (0 : Int) < 0) ∨
     ((rayTracingInit ⟨0, false, 0, 0⟩ (graphicsInit 32 4096 8192 65536) 1280 720 4096).hresult
        = (0 : Int) ∧ (0 : Int) < 0)) :=
  claim_C3_disabled_no_setup ⟨0, false, 0, 0⟩ (graphicsInit 32 4096 8192 65536)
    1280 720 4096 (Or.inl rfl)

/-! ### Claim C4: Raytrace precondition guard (corrected) -/

/-- A state in which initialization completed (both flags set, shader table
    built with the real 64-byte stride) but the TLAS was never built. -/
def enabledStateNoTLAS : RTState :=
  { rtInitialState with
      dxrAvailable := true
      dxrInitialized := true
      ShaderTableRecordSize := 64
      ShaderTable := some ⟨192, 4096⟩ }

/-- Claim C4 counterexample: in a state with both flags set and a null TLAS,
    Raytrace does not skip — it dereferences the null TLAS (modelled as the
    none outcome), so it is not the claimed no-op. -/
theorem claim_C4_counterexample :
    enabledStateNoTLAS.TLAS = none ∧
    raytrace enabledStateNoTLAS (graphicsInit 32 4096 8192 65536) 1280 720 = none ∧
    raytrace enabledStateNoTLAS (graphicsInit 32 4096 8192 65536) 1280 720 ≠
      some ([], graphicsInit 32 4096 8192 65536) := by
  decide

/-- Claim C4 amended: Raytrace is a no-op (records no commands and leaves the
    Graphics state unchanged) exactly when the pipeline is not initialized or
    DXR is unavailable; it performs no null-TLAS check — once both flags are
    set it proceeds unconditionally and dereferences the TLAS handle, faulting
    when it is null. -/
theorem claim_C4_noop_guard (rt : RTState) (g : GraphicsState)
    (windowWidth windowHeight : Nat) :
    (rt.dxrInitialized = false ∨ rt.dxrAvailable = false →
      raytrace rt g windowWidth windowHeight = some ([], g)) ∧
    (rt.dxrInitialized = true → rt.dxrAvailable = true → rt.TLAS = none →
      raytrace rt g windowWidth windowHeight = none) := by
  constructor
  · intro hc
    unfold raytrace
    rcases hc with h | h <;> simp [h]
  · intro h1 h2 h3
    unfold raytrace
    rw [h3]
    cases hst : rt.ShaderTable <;> simp [h1, h2]

/-- Witness for the amended C4 at the initial (disabled) state. -/
theorem claim_C4_noop_guard_witness :
    raytrace rtInitialState (graphicsInit 32 4096 8192 65536) 1280 720 =
      some ([], graphicsInit 32 4096 8192 65536) :=
  (claim_C4_noop_guard rtInitialState (graphicsInit 32 4096 8192 65536) 1280 720).1
    (Or.inl rfl)

/-! ### Claim C8: disabled state silent no-ops -/

/-- Claim C8: when initialization recorded ray tracing as unsupported
    (dxrAvailable false), Raytrace and ResizeOutputUAV issue zero device or
    command-list calls and change no state. -/
theorem claim_C8_disabled_silent_noop (rt : RTState) (g : GraphicsState)
    (windowWidth windowHeight resizeWidth resizeHeight : Nat)
    (hdis : rt.dxrAvailable = false) :
    raytrace rt g windowWidth windowHeight = some ([], g) ∧
    resizeOutputUAV rt g resizeWidth resizeHeight = ([], rt, g) := by
  constructor
  · unfold raytrace
    simp [hdis]
  · unfold resizeOutputUAV
    simp [hdis]

/-- Witness for C8 at the initial (disabled) state. -/
theorem claim_C8_disabled_silent_noop_witness :
    raytrace rtInitialState (graphicsInit 32 4096 8192 65536) 1280 720 =
      some ([], graphicsInit 32 4096 8192 65536) ∧
    resizeOutputUAV rtInitialState (graphicsInit 32 4096 8192 65536) 800 600 =
      ([], rtInitialState, graphicsInit 32 4096 8192 65536) :=
  claim_C8_disabled_silent_noop rtInitialState (graphicsInit 32 4096 8192 65536)
    1280 720 800 600 rfl

/-! ### Claim C5: fixed record order and dispatch addressing -/

/-- Claim C5: CreateShaderTable writes the records in the fixed order
    ray-generation (offset 0 * stride), miss (1 * stride), hit group
    (2 * stride), and Raytrace computes the three dispatch shader-table
    start addresses purely as baseAddress + recordIndex * recordStride in the
    same order, with sizes and strides equal to the record stride. -/
theorem claim_C5_record_order_and_dispatch
    (rt rt2 : RTState) (g : GraphicsState)
    (tableBufferAddress windowWidth windowHeight : Nat)
    (shaderTable tlas : GPUResource)
    (h0 : rt.dxrInitialized = false) (h1 : rt.dxrAvailable = true)
    (h2 : rt2.dxrInitialized = true) (h3 : rt2.dxrAvailable = true)
    (h4 : rt2.ShaderTable = some shaderTable) (h5 : rt2.TLAS = some tlas) :
    (createShaderTable rt tableBufferAddress).2.2 =
      [TableWrite.shaderIdentifier "RayGen"
         (0 * (createShaderTable rt tableBufferAddress).1.ShaderTableRecordSize),
       TableWrite.shaderIdentifier "Miss"
         (1 * (createShaderTable rt tableBufferAddress).1.ShaderTableRecordSize),
       TableWrite.shaderIdentifier "HitGroup"
         (2 * (createShaderTable rt tableBufferAddress).1.ShaderTableRecordSize)] ∧
    (∃ calls gAfter,
      raytrace rt2 g windowWidth windowHeight = some (calls, gAfter) ∧
      GPUCall.dispatchRays
        { rayGenerationShaderRecordStartAddress :=
            shaderTable.gpuVirtualAddress + 0 * rt2.ShaderTableRecordSize
          rayGenerationShaderRecordSizeInBytes := rt2.ShaderTableRecordSize
          missShaderTableStartAddress :=
            shaderTable.gpuVirtualAddress + 1 * rt2.ShaderTableRecordSize
          missShaderTableSizeInBytes := rt2.ShaderTableRecordSize
          missShaderTableStrideInBytes := rt2.ShaderTableRecordSize
          hitGroupTableStartAddress :=
            shaderTable.gpuVirtualAddress + 2 * rt2.ShaderTableRecordSize
          hitGroupTableSizeInBytes := rt2.ShaderTableRecordSize
          hitGroupTableStrideInBytes := rt2.ShaderTableRecordSize
          width := windowWidth
          height := windowHeight
          depth := 1 } ∈ calls) := by
  constructor
  · unfold createShaderTable
    simp [h0, h1, Nat.two_mul]
  · unfold raytrace
    rw [h4, h5]
    simp only [h2, h3, Bool.not_true, Bool.or_self, Bool.false_or, if_neg]
    refine ⟨_, _, rfl, ?_⟩
    have harith1 : shaderTable.gpuVirtualAddress + 0 * rt2.ShaderTableRecordSize
        = shaderTable.gpuVirtualAddress := by ring
    have harith2 : shaderTable.gpuVirtualAddress + 1 * rt2.ShaderTableRecordSize
        = shaderTable.gpuVirtualAddress + rt2.ShaderTableRecordSize := by ring
    have harith3 : shaderTable.gpuVirtualAddress + 2 * rt2.ShaderTableRecordSize
        = shaderTable.gpuVirtualAddress + rt2.ShaderTableRecordSize * 2 := by ring
    rw [harith1, harith2, harith3]
    simp

/-- A post-initialization state used to witness C5: flags set, shader table of
    size 192 at address 16384 with the real 64-byte stride, TLAS built. -/
def enabledStateWithTLAS : RTState :=
  { rtInitialState with
      dxrAvailable := true
      dxrInitialized := true
      ShaderTableRecordSize := 64
      ShaderTable := some ⟨192, 16384⟩
      TLAS := some ⟨256, 8192⟩ }

/-- Witness for C5 at concrete states. -/
theorem claim_C5_record_order_and_dispatch_witness :
    (createShaderTable { rtInitialState with dxrAvailable := true } 16384).2.2 =
      [TableWrite.shaderIdentifier "RayGen"
         (0 * (createShaderTable { rtInitialState with dxrAvailable := true }
            16384).1.ShaderTableRecordSize),
       TableWrite.shaderIdentifier "Miss"
         (1 * (createShaderTable { rtInitialState with dxrAvailable := true }
            16384).1.ShaderTableRecordSize),
       TableWrite.shaderIdentifier "HitGroup"
         (2 * (createShaderTable { rtInitialState with dxrAvailable := true }
            16384).1.ShaderTableRecordSize)] ∧
    (∃ calls gAfter,
      raytrace enabledStateWithTLAS (graphicsInit 32 4096 8192 65536) 1280 720
        = some (calls, gAfter) ∧
      GPUCall.dispatchRays
        { rayGenerationShaderRecordStartAddress :=
            (16384 : Nat) + 0 * enabledStateWithTLAS.ShaderTableRecordSize
          rayGenerationShaderRecordSizeInBytes := enabledStateWithTLAS.ShaderTableRecordSize
          missShaderTableStartAddress :=
            (16384 : Nat) + 1 * enabledStateWithTLAS.ShaderTableRecordSize
          missShaderTableSizeInBytes := enabledStateWithTLAS.ShaderTableRecordSize
          missShaderTableStrideInBytes := enabledStateWithTLAS.ShaderTableRecordSize
          hitGroupTableStartAddress :=
            (16384 : Nat) + 2 * enabledStateWithTLAS.ShaderTableRecordSize
          hitGroupTableSizeInBytes := enabledStateWithTLAS.ShaderTableRecordSize
          hitGroupTableStrideInBytes := enabledStateWithTLAS.ShaderTableRecordSize
          width := 1280
          height := 720
          depth := 1 } ∈ calls) :=
  claim_C5_record_order_and_dispatch
    { rtInitialState with dxrAvailable := true } enabledStateWithTLAS
    (graphicsInit 32 4096 8192 65536) 16384 1280 720 ⟨192, 16384⟩ ⟨256, 8192⟩
    rfl rfl rfl rfl rfl rfl

/-! ### Claim C6: acceleration-structure buffer sizes -/

/-- Claim C6: for every scratch size and result size reported by the device,
    CreateBLAS and CreateTLAS allocate their scratch and result buffers at
    exactly those sizes aligned up to
    D3D12_RAYTRACING_ACCELERATION_STRUCTURE_BYTE_ALIGNMENT (256), where
    ALIGN at 256 rounds up to the next multiple of 256. -/
theorem claim_C6_accel_buffer_sizes
    (rt : RTState) (g : GraphicsState) (mesh : Mesh)
    (blasPrebuild tlasPrebuild : PrebuildInfo) (blas : GPUResource)
    (blasScratchAddr blasResultAddr instAddr tlasScratchAddr tlasResultAddr : Nat)
    (hAvail : rt.dxrAvailable = true) (hBlas : rt.BLAS = some blas) :
    ((createBLAS rt g mesh blasPrebuild blasScratchAddr blasResultAddr).1.BLASScratchBuffer.map
        GPUResource.sizeInBytes
      = some (ALIGN blasPrebuild.ScratchDataSizeInBytes
          D3D12_RAYTRACING_ACCELERATION_STRUCTURE_BYTE_ALIGNMENT)) ∧
    ((createBLAS rt g mesh blasPrebuild blasScratchAddr blasResultAddr).1.BLAS.map
        GPUResource.sizeInBytes
      = some (ALIGN blasPrebuild.ResultDataMaxSizeInBytes
          D3D12_RAYTRACING_ACCELERATION_STRUCTURE_BYTE_ALIGNMENT)) ∧
    (∃ rtT insts calls,
      createTLAS rt tlasPrebuild instAddr tlasScratchAddr tlasResultAddr
        = some (rtT, insts, calls) ∧
      rtT.TLASScratchBuffer.map GPUResource.sizeInBytes
        = some (ALIGN tlasPrebuild.ScratchDataSizeInBytes
            D3D12_RAYTRACING_ACCELERATION_STRUCTURE_BYTE_ALIGNMENT) ∧
      rtT.TLAS.map GPUResource.sizeInBytes
        = some (ALIGN tlasPrebuild.ResultDataMaxSizeInBytes
            D3D12_RAYTRACING_ACCELERATION_STRUCTURE_BYTE_ALIGNMENT)) ∧
    (∀ v, IsAlignedUp v D3D12_RAYTRACING_ACCELERATION_STRUCTURE_BYTE_ALIGNMENT
      (ALIGN v D3D12_RAYTRACING_ACCELERATION_STRUCTURE_BYTE_ALIGNMENT)) := by
  refine ⟨?_, ?_, ?_, ?_⟩
  · unfold createBLAS
    simp [hAvail]
  · unfold createBLAS
    simp [hAvail]
  · unfold createTLAS
    rw [hBlas]
    simp [hAvail]
  · intro v
    unfold D3D12_RAYTRACING_ACCELERATION_STRUCTURE_BYTE_ALIGNMENT
    exact ALIGN_256_isAlignedUp v

/-- A state with DXR available and a BLAS already built, to witness C6. -/
def availableStateWithBLAS : RTState :=
  { rtInitialState with dxrAvailable := true, BLAS := some ⟨1024, 32768⟩ }

/-- Witness for C6 at concrete prebuild sizes 1000/500 (BLAS) and 700/300
    (TLAS), whose aligned values are 1024/512 and 768/512. -/
theorem claim_C6_accel_buffer_sizes_witness :
    ((createBLAS availableStateWithBLAS (graphicsInit 32 4096 8192 65536)
        ⟨3, 3, 1111, 2222⟩ ⟨1000, 500⟩ 4444 5555).1.BLASScratchBuffer.map
        GPUResource.sizeInBytes
      = some (ALIGN 1000 D3D12_RAYTRACING_ACCELERATION_STRUCTURE_BYTE_ALIGNMENT)) ∧
    ((createBLAS availableStateWithBLAS (graphicsInit 32 4096 8192 65536)
        ⟨3, 3, 1111, 2222⟩ ⟨1000, 500⟩ 4444 5555).1.BLAS.map GPUResource.sizeInBytes
      = some (ALIGN 500 D3D12_RAYTRACING_ACCELERATION_STRUCTURE_BYTE_ALIGNMENT)) ∧
    (∃ rtT insts calls,
      createTLAS availableStateWithBLAS ⟨700, 300⟩ 6666 7777 8888
        = some (rtT, insts, calls) ∧
      rtT.TLASScratchBuffer.map GPUResource.sizeInBytes
        = some (ALIGN 700 D3D12_RAYTRACING_ACCELERATION_STRUCTURE_BYTE_ALIGNMENT) ∧
      rtT.TLAS.map GPUResource.sizeInBytes
        = some (ALIGN 300 D3D12_RAYTRACING_ACCELERATION_STRUCTURE_BYTE_ALIGNMENT)) ∧
    (∀ v, IsAlignedUp v D3D12_RAYTRACING_ACCELERATION_STRUCTURE_BYTE_ALIGNMENT
      (ALIGN v D3D12_RAYTRACING_ACCELERATION_STRUCTURE_BYTE_ALIGNMENT)) :=
  claim_C6_accel_buffer_sizes availableStateWithBLAS (graphicsInit 32 4096 8192 65536)
    ⟨3, 3, 1111, 2222⟩ ⟨1000, 500⟩ ⟨700, 300⟩ ⟨1024, 32768⟩
    4444 5555 6666 7777 8888 rfl rfl

/-! ### Claim C7: BLAS + TLAS scenario and the hit-group patch slot (corrected) -/

/-- A post-initialization state for the C7 scenario: flags set, shader table of
    size 192 at address 16384 with the real 64-byte record stride. -/
def postInitState : RTState :=
  { rtInitialState with
      dxrAvailable := true
      dxrInitialized := true
      ShaderTableRecordSize := 64
      ShaderTable := some ⟨192, 16384⟩ }

/-- Claim C7 counterexample: building the BLAS for a 3-vertex / 3-index mesh
    patches the index-buffer SRV handle into the shader table at byte offset
    168 = 2 * 64 + 32 + 8 — the SECOND descriptor-handle-sized slot of the
    hit-group record (after the identifier AND the CBV placeholder slot) — not
    the record's first handle-sized slot at 160 = 2 * 64 + 32. -/
theorem claim_C7_counterexample :
    (createBLAS postInitState (graphicsInit 32 4096 8192 65536)
        ⟨3, 3, 1111, 2222⟩ ⟨600, 400⟩ 4444 5555).2.2.2
      = [TableWrite.descriptorHandle 40192 168] ∧
    (168 : Nat) = 2 * postInitState.ShaderTableRecordSize
      + D3D12_SHADER_IDENTIFIER_SIZE_IN_BYTES + sizeof_D3D12_GPU_DESCRIPTOR_HANDLE ∧
    ¬ ((168 : Nat) = 2 * postInitState.ShaderTableRecordSize
      + D3D12_SHADER_IDENTIFIER_SIZE_IN_BYTES) := by
  decide

/-- Claim C7 amended: after CreateBLAS, the index- and vertex-buffer SRVs sit
    in adjacent descriptor-heap slots with the index buffer first; the
    index-buffer SRV handle is memcpy'd into the hit-group record's SECOND
    descriptor-handle-sized slot (offset 2 * stride + identifierSize +
    handleSize, the first such slot being the unwritten CBV placeholder); and
    CreateTLAS then succeeds with exactly one identity-transform instance and
    a non-null TLAS handle. -/
theorem claim_C7_blas_tlas_scenario
    (rt : RTState) (g : GraphicsState) (mesh : Mesh)
    (blasPrebuild tlasPrebuild : PrebuildInfo)
    (blasScratchAddr blasResultAddr instAddr tlasScratchAddr tlasResultAddr : Nat)
    (hAvail : rt.dxrAvailable = true) :
    ((createBLAS rt g mesh blasPrebuild blasScratchAddr blasResultAddr).1.indexBufferSRV
      = g.heapStartGPU + g.srvDescriptorOffset * g.cbvSrvDescriptorHeapIncrementSize) ∧
    ((createBLAS rt g mesh blasPrebuild blasScratchAddr blasResultAddr).1.vertexBufferSRV
      = g.heapStartGPU + (g.srvDescriptorOffset + 1) * g.cbvSrvDescriptorHeapIncrementSize) ∧
    ((createBLAS rt g mesh blasPrebuild blasScratchAddr blasResultAddr).2.2.2
      = [TableWrite.descriptorHandle
          (createBLAS rt g mesh blasPrebuild blasScratchAddr blasResultAddr).1.indexBufferSRV
          (2 * rt.ShaderTableRecordSize + D3D12_SHADER_IDENTIFIER_SIZE_IN_BYTES
            + sizeof_D3D12_GPU_DESCRIPTOR_HANDLE)]) ∧
    (∃ rtT insts calls,
      createTLAS (createBLAS rt g mesh blasPrebuild blasScratchAddr blasResultAddr).1
          tlasPrebuild instAddr tlasScratchAddr tlasResultAddr
        = some (rtT, insts, calls) ∧
      rtT.TLAS ≠ none ∧
      insts.length = 1 ∧
      ∀ inst ∈ insts, inst.Transform = tlasInstanceTransform ∧ inst.InstanceMask = 0xFF) := by
  refine ⟨?_, ?_, ?_, ?_⟩
  · unfold createBLAS reserveSrvUavDescriptorHeapSlot
    simp [hAvail]
  · unfold createBLAS reserveSrvUavDescriptorHeapSlot
    simp [hAvail]
  · unfold createBLAS reserveSrvUavDescriptorHeapSlot
    simp [hAvail, Nat.two_mul]
  · unfold createBLAS createTLAS reserveSrvUavDescriptorHeapSlot
    simp [hAvail]
    refine ⟨_, _, ⟨rfl, rfl⟩, by simp, rfl, ?_⟩
    intro inst hin
    rw [List.mem_singleton] at hin
    subst hin
    exact ⟨rfl, rfl⟩

/-- Witness for the amended C7 at the concrete 3-vertex / 3-index scenario. -/
theorem claim_C7_blas_tlas_scenario_witness :
    ((createBLAS postInitState (graphicsInit 32 4096 8192 65536)
        ⟨3, 3, 1111, 2222⟩ ⟨600, 400⟩ 4444 5555).1.indexBufferSRV
      = (graphicsInit 32 4096 8192 65536).heapStartGPU
        + (graphicsInit 32 4096 8192 65536).srvDescriptorOffset
          * (graphicsInit 32 4096 8192 65536).cbvSrvDescriptorHeapIncrementSize) ∧
    ((createBLAS postInitState (graphicsInit 32 4096 8192 65536)
        ⟨3, 3, 1111, 2222⟩ ⟨600, 400⟩ 4444 5555).1.vertexBufferSRV
      = (graphicsInit 32 4096 8192 65536).heapStartGPU
        + ((graphicsInit 32 4096 8192 65536).srvDescriptorOffset + 1)
          * (graphicsInit 32 4096 8192 65536).cbvSrvDescriptorHeapIncrementSize) ∧
    ((createBLAS postInitState (graphicsInit 32 4096 8192 65536)
        ⟨3, 3, 1111, 2222⟩ ⟨600, 400⟩ 4444 5555).2.2.2
      = [TableWrite.descriptorHandle
          (createBLAS postInitState (graphicsInit 32 4096 8192 65536)
            ⟨3, 3, 1111, 2222⟩ ⟨600, 400⟩ 4444 5555).1.indexBufferSRV
          (2 * postInitState.ShaderTableRecordSize + D3D12_SHADER_IDENTIFIER_SIZE_IN_BYTES
            + sizeof_D3D12_GPU_DESCRIPTOR_HANDLE)]) ∧
    (∃ rtT insts calls,
      createTLAS (createBLAS postInitState (graphicsInit 32 4096 8192 65536)
          ⟨3, 3, 1111, 2222⟩ ⟨600, 400⟩ 4444 5555).1
          ⟨700, 300⟩ 6666 7777 8888
        = some (rtT, insts, calls) ∧
      rtT.TLAS ≠ none ∧
      insts.length = 1 ∧
      ∀ inst ∈ insts, inst.Transform = tlasInstanceTransform ∧ inst.InstanceMask = 0xFF) :=
  claim_C7_blas_tlas_scenario postInitState (graphicsInit 32 4096 8192 65536)
    ⟨3, 3, 1111, 2222⟩ ⟨600, 400⟩ ⟨700, 300⟩ 4444 5555 6666 7777 8888 rfl

/-! ### Claim C9: the output UAV descriptor slot is reserved exactly once -/

/-- Fold a sequence of ResizeOutputUAV calls over the RayTracing and Graphics
    states (the resize loop driven by window-size notifications). -/
def applyResizes (p : RTState × GraphicsState) (sizes : List (Nat × Nat)) :
    RTState × GraphicsState :=
  sizes.foldl
    (fun q wh =>
      ((resizeOutputUAV q.1 q.2 wh.1 wh.2).2.1, (resizeOutputUAV q.1 q.2 wh.1 wh.2).2.2))
    p

/-- A single resize on a state whose output UAV GPU handle is already non-null
    keeps that handle and leaves the Graphics allocator untouched. -/
theorem resizeOutputUAV_preserves_slot (rt : RTState) (g : GraphicsState) (w h : Nat)
    (hnz : rt.RaytracingOutputUAV_GPU ≠ 0) :
    (resizeOutputUAV rt g w h).2.1.RaytracingOutputUAV_GPU = rt.RaytracingOutputUAV_GPU ∧
    (resizeOutputUAV rt g w h).2.2 = g := by
  unfold resizeOutputUAV createRaytracingOutputUAV
  split
  · exact ⟨rfl, rfl⟩
  · dsimp only
    rw [if_neg hnz]
    exact ⟨rfl, rfl⟩

/-- Any sequence of resizes on a state with a non-null output UAV GPU handle
    keeps the handle and the Graphics allocator state. -/
theorem applyResizes_preserves_slot (sizes : List (Nat × Nat)) :
    ∀ p : RTState × GraphicsState, p.1.RaytracingOutputUAV_GPU ≠ 0 →
      (applyResizes p sizes).1.RaytracingOutputUAV_GPU = p.1.RaytracingOutputUAV_GPU ∧
      (applyResizes p sizes).2 = p.2 := by
  induction sizes with
  | nil => exact fun p _ => ⟨rfl, rfl⟩
  | cons wh rest ih =>
    intro p hp
    have hstep := resizeOutputUAV_preserves_slot p.1 p.2 wh.1 wh.2 hp
    have hne : ((resizeOutputUAV p.1 p.2 wh.1 wh.2).2.1,
        (resizeOutputUAV p.1 p.2 wh.1 wh.2).2.2).1.RaytracingOutputUAV_GPU ≠ 0 := by
      dsimp only
      rw [hstep.1]
      exact hp
    have hrec := ih ((resizeOutputUAV p.1 p.2 wh.1 wh.2).2.1,
      (resizeOutputUAV p.1 p.2 wh.1 wh.2).2.2) hne
    have hfold : applyResizes p (wh :: rest) =
        applyResizes ((resizeOutputUAV p.1 p.2 wh.1 wh.2).2.1,
          (resizeOutputUAV p.1 p.2 wh.1 wh.2).2.2) rest := rfl
    rw [hfold]
    exact ⟨hrec.1.trans hstep.1, hrec.2.trans hstep.2⟩

/-- Claim C9: after a successful Initialize, the output UAV descriptor slot is
    reserved exactly once (the SRV/UAV cursor advances by exactly one and the
    GPU handle is the slot at the pre-Initialize cursor), and every subsequent
    sequence of ResizeOutputUAV calls keeps the handle identity and reserves
    no further slot. -/
theorem claim_C9_output_slot_reserved_once
    (inp : InitInputs) (g : GraphicsState)
    (outputWidth outputHeight tableBufferAddress : Nat) (sizes : List (Nat × Nat))
    (hsup : FAILED inp.supportResult = false) (htier : inp.raytracingTierSupported = true)
    (hdev : FAILED inp.dxrDeviceResult = false) (hcl : FAILED inp.dxrCommandListResult = false)
    (hpos : 0 < g.heapStartGPU) :
    ((rayTracingInit inp g outputWidth outputHeight tableBufferAddress).rtState.RaytracingOutputUAV_GPU
      = g.heapStartGPU + g.srvDescriptorOffset * g.cbvSrvDescriptorHeapIncrementSize) ∧
    ((rayTracingInit inp g outputWidth outputHeight tableBufferAddress).gfx.srvDescriptorOffset
      = g.srvDescriptorOffset + 1) ∧
    ((applyResizes
        ((rayTracingInit inp g outputWidth outputHeight tableBufferAddress).rtState,
         (rayTracingInit inp g outputWidth outputHeight tableBufferAddress).gfx)
        sizes).1.RaytracingOutputUAV_GPU
      = g.heapStartGPU + g.srvDescriptorOffset * g.cbvSrvDescriptorHeapIncrementSize) ∧
    ((applyResizes
        ((rayTracingInit inp g outputWidth outputHeight tableBufferAddress).rtState,
         (rayTracingInit inp g outputWidth outputHeight tableBufferAddress).gfx)
        sizes).2.srvDescriptorOffset
      = g.srvDescriptorOffset + 1) := by
  have h1 : (rayTracingInit inp g outputWidth outputHeight
        tableBufferAddress).rtState.RaytracingOutputUAV_GPU
      = g.heapStartGPU + g.srvDescriptorOffset * g.cbvSrvDescriptorHeapIncrementSize := by
    unfold rayTracingInit createShaderTable createRaytracingOutputUAV
      reserveSrvUavDescriptorHeapSlot
    simp [hsup, htier, hdev, hcl, rtInitialState]
  have h2 : (rayTracingInit inp g outputWidth outputHeight
        tableBufferAddress).gfx.srvDescriptorOffset = g.srvDescriptorOffset + 1 := by
    unfold rayTracingInit createShaderTable createRaytracingOutputUAV
      reserveSrvUavDescriptorHeapSlot
    simp [hsup, htier, hdev, hcl, rtInitialState]
  have hne : ((rayTracingInit inp g outputWidth outputHeight tableBufferAddress).rtState,
      (rayTracingInit inp g outputWidth outputHeight
        tableBufferAddress).gfx).1.RaytracingOutputUAV_GPU ≠ 0 := by
    dsimp only
    rw [h1]
    omega
  have hpres := applyResizes_preserves_slot sizes
    ((rayTracingInit inp g outputWidth outputHeight tableBufferAddress).rtState,
     (rayTracingInit inp g outputWidth outputHeight tableBufferAddress).gfx) hne
  refine ⟨h1, h2, hpres.1.trans h1, ?_⟩
  rw [hpres.2]
  exact h2

/-- Witness for C9 at a concrete successful initialization and two resizes. -/
theorem claim_C9_output_slot_reserved_once_witness :
    ((rayTracingInit ⟨0, true, 0, 0⟩ (graphicsInit 32 4096 8192 65536)
        1280 720 16384).rtState.RaytracingOutputUAV_GPU
      = (graphicsInit 32 4096 8192 65536).heapStartGPU
        + (graphicsInit 32 4096 8192 65536).srvDescriptorOffset
          * (graphicsInit 32 4096 8192 65536).cbvSrvDescriptorHeapIncrementSize) ∧
    ((rayTracingInit ⟨0, true, 0, 0⟩ (graphicsInit 32 4096 8192 65536)
        1280 720 16384).gfx.srvDescriptorOffset
      = (graphicsInit 32 4096 8192 65536).srvDescriptorOffset + 1) ∧
    ((applyResizes
        ((rayTracingInit ⟨0, true, 0, 0⟩ (graphicsInit 32 4096 8192 65536)
            1280 720 16384).rtState,
         (rayTracingInit ⟨0, true, 0, 0⟩ (graphicsInit 32 4096 8192 65536)
            1280 720 16384).gfx)
        [(800, 600), (1024, 768)]).1.RaytracingOutputUAV_GPU
      = (graphicsInit 32 4096 8192 65536).heapStartGPU
        + (graphicsInit 32 4096 8192 65536).srvDescriptorOffset
          * (graphicsInit 32 4096 8192 65536).cbvSrvDescriptorHeapIncrementSize) ∧
    ((applyResizes
        ((rayTracingInit ⟨0, true, 0, 0⟩ (graphicsInit 32 4096 8192 65536)
            1280 720 16384).rtState,
         (rayTracingInit ⟨0, true, 0, 0⟩ (graphicsInit 32 4096 8192 65536)
            1280 720 16384).gfx)
        [(800, 600), (1024, 768)]).2.srvDescriptorOffset
      = (graphicsInit 32 4096 8192 65536).srvDescriptorOffset + 1) :=
  claim_C9_output_slot_reserved_once ⟨0, true, 0, 0⟩ (graphicsInit 32 4096 8192 65536)
    1280 720 16384 [(800, 600), (1024, 768)] rfl rfl rfl rfl (by decide)

end DXRStarter
